import Mathlib

/-!
Verification of the `ouango_ContigFilter` length-filtering pipeline
(`src/lib/ouango_ContigFilter/__init__.py`, function `run_ouango_ContigFilter`).

The embedding models:
* Python parameter values (`PValue`), where a boolean is also an integer,
  as in Python where `bool` is a subclass of `int`;
* the parameter mapping as an association list with first-match lookup;
* the validation block (lines 30-38 of the source) as `validate`;
* the filtering loop (lines 62-66) as `filterContigs`, a left fold that
  increments `n_total` for every record and appends records whose sequence
  length lies within the inclusive bounds;
* the whole pipeline as `run_ouango_ContigFilter`, a pure function over a
  record of external collaborators (assembly fetch/save, report creation)
  that returns the ordered trace of collaborator calls together with the
  final output dictionary, or a `ValueError` message paired with the trace
  of effects performed before the error was raised.
-/

namespace ContigFilters

/-- Dynamically typed Python parameter value. `bool` is listed separately
because Python treats `True`/`False` as instances of `int` with values 1/0. -/
inductive PValue where
  | str (s : String)
  | int (n : Int)
  | bool (b : Bool)
  | none
deriving DecidableEq, Repr

/-- Python `isinstance(v, int)`: true for `int` and for `bool` (a subclass). -/
def isPyInt : PValue → Bool
  | PValue.int _ => true
  | PValue.bool _ => true
  | _ => false

/-- Numeric value of a Python object used in integer context:
`True` is 1 and `False` is 0. -/
def pyIntVal : PValue → Int
  | PValue.int n => n
  | PValue.bool b => if b then 1 else 0
  | _ => 0

/-- String value of a Python object; only meaningful on `str` values. -/
def pyStrVal : PValue → String
  | PValue.str s => s
  | _ => ""

/-- The raw parameter mapping `params`, a dictionary from names to values. -/
def Params : Type := List (String × PValue)

/-- Dictionary lookup, first match wins. -/
def Params.lookup (p : Params) (name : String) : Option PValue :=
  List.lookup name p

/-- A parsed FASTA record: an identifier and the residue string
(`record.id` and `record.seq` of a Biopython `SeqRecord`). -/
structure SeqRecord where
  id : String
  seq : String
deriving DecidableEq, Repr

/-- The loop condition of line 64 of the source:
`len(record.seq) >= min_length and len(record.seq) <= max_length`. -/
def keep (min_length max_length : Int) (record : SeqRecord) : Bool :=
  decide (min_length ≤ (record.seq.length : Int)) &&
    decide ((record.seq.length : Int) ≤ max_length)

/-- The filtering loop of lines 57-66 of the source: starting from
`good_contigs = []`, `n_total = 0`, `n_remaining = 0`, iterate the records
in order, incrementing `n_total` for each and appending the record and
incrementing `n_remaining` when the length test passes.
Returns `(n_total, n_remaining, good_contigs)`. -/
def filterContigs (min_length max_length : Int) (records : List SeqRecord) :
    Nat × Nat × List SeqRecord :=
  records.foldl
    (fun acc record =>
      if keep min_length max_length record then
        (acc.1 + 1, acc.2.1 + 1, acc.2.2 ++ [record])
      else
        (acc.1 + 1, acc.2.1, acc.2.2))
    (0, 0, [])

/-- The four required parameter names, in the order the source checks them
(line 30). -/
def requiredParams : List String :=
  ["min_length", "max_length", "assembly_input_ref", "workspace_name"]

/-- The message of the missing-parameter `ValueError` (line 32). -/
def missingMsg (name : String) : String :=
  "Parameter \"" ++ name ++ "\" is required but missing"

/-- The `for name in [...]` presence loop of lines 30-32: raise on the first
required name absent from the mapping. -/
def checkMissing : List String → Params → Except String Unit
  | [], _ => Except.ok ()
  | name :: rest, params =>
    if (params.lookup name).isSome then checkMissing rest params
    else Except.error (missingMsg name)

/-- Line 33 of the source: `assembly_input_ref` must be a `str` of nonzero
length. -/
def validAssemblyRef : PValue → Bool
  | PValue.str s => s.length != 0
  | _ => false

/-- Lines 35 and 37 of the source: the bound must satisfy
`isinstance(v, int)` and be nonnegative. No parsing of strings happens. -/
def nonNegInt (v : PValue) : Bool :=
  isPyInt v && decide (0 ≤ pyIntVal v)

/-- The validation block, lines 30-38 of the source, in source order:
presence of the four required keys, then the assembly reference check,
then the `min_length` check, then the `max_length` check. -/
def validate (params : Params) : Except String Unit :=
  match checkMissing requiredParams params with
  | Except.error e => Except.error e
  | Except.ok _ =>
    if validAssemblyRef ((params.lookup "assembly_input_ref").getD PValue.none) then
      if nonNegInt ((params.lookup "min_length").getD PValue.none) then
        if nonNegInt ((params.lookup "max_length").getD PValue.none) then
          Except.ok ()
        else Except.error "Max length must be a non-negative integer"
      else Except.error "Min length must be a non-negative integer"
    else Except.error "Pass in a valid assembly reference string"

/-- One call to an external collaborator, recorded in order of occurrence. -/
inductive Effect where
  | fetch (assemblyRef : String)
  | writeFasta (path : String) (records : List SeqRecord)
  | saveAssembly (path : String) (workspace : PValue) (assemblyName : String)
  | createReport (objectRef : String) (textMessage : String) (workspace : PValue)
deriving DecidableEq, Repr

/-- The external collaborators (AssemblyUtil and KBaseReport), modelled as
pure oracles: each call's result is a function of its arguments. -/
structure Collaborators where
  fetchRecords : String → List SeqRecord
  fetchName : String → String
  saveRef : String → PValue → String → String
  reportCreate : String → String → PValue → String × String

/-- The output dictionary built at lines 137-143 of the source. -/
structure Output where
  report_name : String
  report_ref : String
  assembly_output : String
  n_initial_contigs : Nat
  n_contigs_removed : Int
  n_contigs_remaining : Nat
deriving DecidableEq, Repr

/-- The path `os.path.join(shared_folder, 'filtered.fasta')` (lines 73, 77). -/
def filteredPath (shared_folder : String) : String :=
  shared_folder ++ "/filtered.fasta"

/-- The report message of lines 91-96: lowercase `assembly`. -/
def msgLower (n_remaining n_total : Nat) : String :=
  "Filtered assembly to " ++ toString n_remaining ++ " contigs out of " ++
    toString n_total

/-- The report message of line 131: capitalized `Assembly`. -/
def msgUpper (n_remaining n_total : Nat) : String :=
  "Filtered Assembly to " ++ toString n_remaining ++ " contigs out of " ++
    toString n_total

/-- The whole of `run_ouango_ContigFilter` (lines 11-145 of the source):
validate, fetch the assembly, filter, write the filtered FASTA (twice,
lines 74 and 78), save the assembly (line 80), create a report whose
result is discarded (line 107), save the assembly again (line 122),
create a second report (line 133), and build the output from the second
save and second report. Returns the trace of collaborator calls and the
output, or the `ValueError` message with the calls made before raising. -/
def run_ouango_ContigFilter (C : Collaborators) (shared_folder : String)
    (params : Params) : Except (String × List Effect) (List Effect × Output) :=
  match validate params with
  | Except.error e => Except.error (e, [])
  | Except.ok _ =>
    let assembly_input_ref :=
      pyStrVal ((params.lookup "assembly_input_ref").getD PValue.none)
    let parsed_assembly := C.fetchRecords assembly_input_ref
    let assembly_name := C.fetchName assembly_input_ref
    let min_length := pyIntVal ((params.lookup "min_length").getD PValue.none)
    let max_length := pyIntVal ((params.lookup "max_length").getD PValue.none)
    let fo := filterContigs min_length max_length parsed_assembly
    let n_total := fo.1
    let n_remaining := fo.2.1
    let good_contigs := fo.2.2
    let workspace_name := (params.lookup "workspace_name").getD PValue.none
    let path := filteredPath shared_folder
    let new_ref := C.saveRef path workspace_name assembly_name
    let text_message := msgLower n_remaining n_total
    let new_assembly := C.saveRef path workspace_name assembly_name
    let report_info :=
      C.reportCreate new_assembly (msgUpper n_remaining n_total) workspace_name
    Except.ok
      ([Effect.fetch assembly_input_ref,
        Effect.writeFasta path good_contigs,
        Effect.writeFasta path good_contigs,
        Effect.saveAssembly path workspace_name assembly_name,
        Effect.createReport new_ref text_message workspace_name,
        Effect.saveAssembly path workspace_name assembly_name,
        Effect.createReport new_assembly (msgUpper n_remaining n_total)
          workspace_name],
       { report_name := report_info.2
         report_ref := report_info.1
         assembly_output := new_assembly
         n_initial_contigs := n_total
         n_contigs_removed := (n_total : Int) - (n_remaining : Int)
         n_contigs_remaining := n_remaining })

/-- Bound `min_length` of a parameter mapping, as read at line 53. -/
def paramMin (p : Params) : Int :=
  pyIntVal ((p.lookup "min_length").getD PValue.none)

/-- Bound `max_length` of a parameter mapping, as read at line 54. -/
def paramMax (p : Params) : Int :=
  pyIntVal ((p.lookup "max_length").getD PValue.none)

/-- The assembly reference string of a parameter mapping (line 46). -/
def paramRef (p : Params) : String :=
  pyStrVal ((p.lookup "assembly_input_ref").getD PValue.none)

/-- The workspace value of a parameter mapping (line 76); never inspected,
only forwarded to collaborators. -/
def paramWs (p : Params) : PValue :=
  (p.lookup "workspace_name").getD PValue.none

/-- The filter outcome of a successful run: `(n_total, n_remaining,
good_contigs)` over the fetched records. -/
def runGood (C : Collaborators) (p : Params) : Nat × Nat × List SeqRecord :=
  filterContigs (paramMin p) (paramMax p) (C.fetchRecords (paramRef p))

/-- The reference returned by the assembly save calls of a successful run
(both calls pass identical arguments, lines 80 and 122). -/
def runNewRef (C : Collaborators) (shared_folder : String) (p : Params) :
    String :=
  C.saveRef (filteredPath shared_folder) (paramWs p)
    (C.fetchName (paramRef p))

/-- The `(ref, name)` pair of the second report (line 133), the one the
output is built from. -/
def runReportInfo (C : Collaborators) (shared_folder : String) (p : Params) :
    String × String :=
  C.reportCreate (runNewRef C shared_folder p)
    (msgUpper (runGood C p).2.1 (runGood C p).1) (paramWs p)

/-- The output of a successful run, lines 137-143. -/
def runOutput (C : Collaborators) (shared_folder : String) (p : Params) :
    Output where
  report_name := (runReportInfo C shared_folder p).2
  report_ref := (runReportInfo C shared_folder p).1
  assembly_output := runNewRef C shared_folder p
  n_initial_contigs := (runGood C p).1
  n_contigs_removed := ((runGood C p).1 : Int) - ((runGood C p).2.1 : Int)
  n_contigs_remaining := (runGood C p).2.1

/-- The collaborator-call trace of a successful run, in source order. -/
def runTrace (C : Collaborators) (shared_folder : String) (p : Params) :
    List Effect :=
  [Effect.fetch (paramRef p),
   Effect.writeFasta (filteredPath shared_folder) (runGood C p).2.2,
   Effect.writeFasta (filteredPath shared_folder) (runGood C p).2.2,
   Effect.saveAssembly (filteredPath shared_folder) (paramWs p)
     (C.fetchName (paramRef p)),
   Effect.createReport (runNewRef C shared_folder p)
     (msgLower (runGood C p).2.1 (runGood C p).1) (paramWs p),
   Effect.saveAssembly (filteredPath shared_folder) (paramWs p)
     (C.fetchName (paramRef p)),
   Effect.createReport (runNewRef C shared_folder p)
     (msgUpper (runGood C p).2.1 (runGood C p).1) (paramWs p)]

/-- Recognizer for assembly-save collaborator calls. -/
def isSaveEffect : Effect → Bool
  | Effect.saveAssembly _ _ _ => true
  | _ => false

/-- Recognizer for report-creation collaborator calls. -/
def isReportEffect : Effect → Bool
  | Effect.createReport _ _ _ => true
  | _ => false

/-- Recognizer for assembly-fetch collaborator calls. -/
def isFetchEffect : Effect → Bool
  | Effect.fetch _ => true
  | _ => false

/-- The text messages handed to the report collaborator, in call order. -/
def reportMessages (tr : List Effect) : List String :=
  tr.filterMap fun e =>
    match e with
    | Effect.createReport _ m _ => some m
    | _ => Option.none

/-- Test fixture: the three records of the test FASTA in
`src/test/ouango_ContigFilter_server_test.py` (lengths 10, 5, 12). -/
def testRecords : List SeqRecord :=
  [{ id := "seq1", seq := "agcttttcat" },
   { id := "seq2", seq := "agctt" },
   { id := "seq3", seq := "agcttttcatgg" }]

/-- Test fixture: collaborators that return the test records and fixed
references. -/
def testCollab : Collaborators where
  fetchRecords := fun _ => testRecords
  fetchName := fun _ => "TestAssembly"
  saveRef := fun _ _ _ => "7/7/1"
  reportCreate := fun _ _ _ => ("9/9/1", "report_9")

/-- Test fixture: the valid parameter mapping of the `my_test_..._ok` test
(min 10, max 100000). -/
def testParams : Params :=
  [("min_length", PValue.int 10), ("max_length", PValue.int 100000),
   ("assembly_input_ref", PValue.str "79/16/1"),
   ("workspace_name", PValue.str "test_ws")]

/-- Unrolling the filtering fold from an arbitrary accumulator: the total
grows by the number of records, and the retained part by their filtered
sublist. -/
lemma filterContigs_go (min_length max_length : Int) (records : List SeqRecord)
    (t n : Nat) (g : List SeqRecord) :
    records.foldl
      (fun acc record =>
        if keep min_length max_length record then
          (acc.1 + 1, acc.2.1 + 1, acc.2.2 ++ [record])
        else
          (acc.1 + 1, acc.2.1, acc.2.2))
      (t, n, g) =
      (t + records.length,
       n + (records.filter (keep min_length max_length)).length,
       g ++ records.filter (keep min_length max_length)) := by
  induction records generalizing t n g with
  | nil => simp
  | cons r rest ih =>
    by_cases h : keep min_length max_length r
    · rw [List.foldl_cons, if_pos h, ih]
      simp [List.filter_cons, h]
      omega
    · rw [List.foldl_cons, if_neg h, ih]
      simp [List.filter_cons, h]
      omega

/-- The loop of lines 62-66 computes the length of the input, the filtered
sublist, and its length. -/
lemma filterContigs_eq (min_length max_length : Int)
    (records : List SeqRecord) :
    filterContigs min_length max_length records =
      (records.length,
       (records.filter (keep min_length max_length)).length,
       records.filter (keep min_length max_length)) := by
  unfold filterContigs
  rw [filterContigs_go]
  simp

/-- Filtering a list twice with the same predicate equals filtering once. -/
lemma filter_self_idem {α : Type} (p : α → Bool) (l : List α) :
    (l.filter p).filter p = l.filter p := by
  induction l with
  | nil => rfl
  | cons a t ih =>
    by_cases h : p a
    · simp [List.filter_cons, h, ih]
    · simp [List.filter_cons, h, ih]

/-- With inverted bounds no record passes the length test. -/
lemma keep_false_of_inverted {min_length max_length : Int}
    (hinv : max_length < min_length) (r : SeqRecord) :
    keep min_length max_length r = false := by
  rw [Bool.eq_false_iff]
  intro hcontra
  rw [keep, Bool.and_eq_true, decide_eq_true_eq, decide_eq_true_eq] at hcontra
  omega

/-- The presence loop succeeds when every name is present. -/
lemma checkMissing_ok_of_forall (names : List String) (p : Params)
    (h : ∀ n ∈ names, (p.lookup n).isSome) :
    checkMissing names p = Except.ok () := by
  induction names with
  | nil => rfl
  | cons name rest ih =>
    rw [checkMissing, if_pos (h name (List.mem_cons_self name rest))]
    exact ih fun n hn => h n (List.mem_cons_of_mem name hn)

/-- When some name is absent, the presence loop raises the missing-field
error for an absent name. -/
lemma checkMissing_error_of_exists (names : List String) (p : Params)
    (h : ∃ n ∈ names, p.lookup n = Option.none) :
    ∃ n ∈ names, p.lookup n = Option.none ∧
      checkMissing names p = Except.error (missingMsg n) := by
  induction names with
  | nil => simp at h
  | cons name rest ih =>
    cases hx : p.lookup name with
    | none =>
      refine ⟨name, List.mem_cons_self name rest, hx, ?_⟩
      rw [checkMissing, hx]
      simp
    | some v =>
      have hrest : ∃ n ∈ rest, p.lookup n = Option.none := by
        obtain ⟨n, hn, hnone⟩ := h
        rcases List.mem_cons.mp hn with heq | hmem
        · subst heq; rw [hx] at hnone; exact absurd hnone (by simp)
        · exact ⟨n, hmem, hnone⟩
      obtain ⟨n, hn, hnone, herr⟩ := ih hrest
      refine ⟨n, List.mem_cons_of_mem name hn, hnone, ?_⟩
      rw [checkMissing, hx]
      simpa using herr

/-- A run with valid parameters succeeds with the canonical trace and
output. -/
lemma run_eq_ok (C : Collaborators) (shared_folder : String) (p : Params)
    (hv : validate p = Except.ok ()) :
    run_ouango_ContigFilter C shared_folder p =
      Except.ok (runTrace C shared_folder p, runOutput C shared_folder p) := by
  unfold run_ouango_ContigFilter
  rw [hv]
  rfl

/-- A run with invalid parameters raises the validation error having
performed no collaborator call. -/
lemma run_eq_error (C : Collaborators) (shared_folder : String) (p : Params)
    (e : String) (hv : validate p = Except.error e) :
    run_ouango_ContigFilter C shared_folder p = Except.error (e, []) := by
  unfold run_ouango_ContigFilter
  rw [hv]

/-- C1: for every finite record list and bounds with
`min_length ≤ max_length`, the filter pass returns a total equal to the
number of input records, a retained list equal to the sublist of records
whose length lies within the inclusive bounds in their original relative
order, and a retained count equal to that list's length; records at
exactly `min_length` or exactly `max_length` are retained. -/
theorem C1_filter_pass_correct (min_length max_length : Int)
    (records : List SeqRecord) (h : min_length ≤ max_length) :
    (filterContigs min_length max_length records).1 = records.length ∧
    (filterContigs min_length max_length records).2.2 =
      records.filter (keep min_length max_length) ∧
    (filterContigs min_length max_length records).2.1 =
      ((filterContigs min_length max_length records).2.2).length ∧
    (records.filter (keep min_length max_length)).Sublist records ∧
    (∀ r ∈ records,
      ((r.seq.length : Int) = min_length ∨ (r.seq.length : Int) = max_length) →
        r ∈ (filterContigs min_length max_length records).2.2) := by
  rw [filterContigs_eq]
  refine ⟨rfl, rfl, rfl, List.filter_sublist records, ?_⟩
  intro r hr hor
  rw [List.mem_filter]
  refine ⟨hr, ?_⟩
  simp only [keep, Bool.and_eq_true, decide_eq_true_eq]
  rcases hor with h1 | h1 <;> omega

/-- Witness for C1 at the test fixture (lengths 10, 5, 12; bounds
10..100000). -/
theorem C1_filter_pass_correct_witness :
    (10 : Int) ≤ 100000 ∧
    ((filterContigs 10 100000 testRecords).1 = testRecords.length ∧
     (filterContigs 10 100000 testRecords).2.2 =
       testRecords.filter (keep 10 100000) ∧
     (filterContigs 10 100000 testRecords).2.1 =
       ((filterContigs 10 100000 testRecords).2.2).length ∧
     (testRecords.filter (keep 10 100000)).Sublist testRecords ∧
     (∀ r ∈ testRecords,
       ((r.seq.length : Int) = 10 ∨ (r.seq.length : Int) = 100000) →
         r ∈ (filterContigs 10 100000 testRecords).2.2)) :=
  ⟨by decide, C1_filter_pass_correct 10 100000 testRecords (by decide)⟩

/-- C2: with inverted bounds (`max_length < min_length`, both admissible to
validation) the filter pass still completes, counts every record, retains
nothing, and the whole pipeline succeeds without raising — no cross-field
validation rejects the inverted bounds. -/
theorem C2_inverted_bounds_empty (C : Collaborators) (shared_folder : String)
    (min_length max_length : Int) (ref workspace : String)
    (records : List SeqRecord)
    (hinv : max_length < min_length) (h0 : 0 ≤ max_length)
    (href : ref.length ≠ 0) :
    (filterContigs min_length max_length records).1 = records.length ∧
    (filterContigs min_length max_length records).2.1 = 0 ∧
    (filterContigs min_length max_length records).2.2 = [] ∧
    ∃ tr out,
      run_ouango_ContigFilter C shared_folder
        [("min_length", PValue.int min_length),
         ("max_length", PValue.int max_length),
         ("assembly_input_ref", PValue.str ref),
         ("workspace_name", PValue.str workspace)] = Except.ok (tr, out) ∧
      out.n_contigs_remaining = 0 := by
  have hfilter : ∀ rs : List SeqRecord,
      rs.filter (keep min_length max_length) = [] := by
    intro rs
    induction rs with
    | nil => rfl
    | cons a t ih => simp [List.filter_cons, keep_false_of_inverted hinv, ih]
  have hmin : (0 : Int) ≤ min_length := le_of_lt (lt_of_le_of_lt h0 hinv)
  refine ⟨?_, ?_, ?_, ?_⟩
  · rw [filterContigs_eq]
  · rw [filterContigs_eq]; simp [hfilter]
  · rw [filterContigs_eq]; simp [hfilter]
  · have hv : validate
        [("min_length", PValue.int min_length),
         ("max_length", PValue.int max_length),
         ("assembly_input_ref", PValue.str ref),
         ("workspace_name", PValue.str workspace)] = Except.ok () := by
      unfold validate
      rw [checkMissing_ok_of_forall]
      · simp [Params.lookup, List.lookup, validAssemblyRef, nonNegInt,
          isPyInt, pyIntVal, href, hmin, h0]
      · intro n hn
        fin_cases hn <;> simp [Params.lookup, List.lookup]
    refine ⟨_, _, run_eq_ok C shared_folder _ hv, ?_⟩
    show (runOutput C shared_folder _).n_contigs_remaining = 0
    simp [runOutput, runGood, paramMin, paramMax, paramRef, Params.lookup,
      List.lookup, pyIntVal, filterContigs_eq, hfilter]

/-- Witness for C2 at concrete inverted bounds 200000 > 100 over the test
records. -/
theorem C2_inverted_bounds_empty_witness :
    ((100 : Int) < 200000 ∧ (0 : Int) ≤ 100 ∧
      ("79/16/1".length ≠ 0)) ∧
    ((filterContigs 200000 100 testRecords).1 = testRecords.length ∧
     (filterContigs 200000 100 testRecords).2.1 = 0 ∧
     (filterContigs 200000 100 testRecords).2.2 = [] ∧
     ∃ tr out,
       run_ouango_ContigFilter testCollab "/tmp"
         [("min_length", PValue.int 200000),
          ("max_length", PValue.int 100),
          ("assembly_input_ref", PValue.str "79/16/1"),
          ("workspace_name", PValue.str "test_ws")] = Except.ok (tr, out) ∧
       out.n_contigs_remaining = 0) :=
  ⟨⟨by decide, by decide, by decide⟩,
   C2_inverted_bounds_empty testCollab "/tmp" 200000 100 "79/16/1" "test_ws"
     testRecords (by decide) (by decide) (by decide)⟩

/-- C6: filtering the retained output again with the same bounds removes
nothing — the retained count of the second pass equals its total count. -/
theorem C6_filter_idempotent (min_length max_length : Int)
    (records : List SeqRecord) :
    (filterContigs min_length max_length
        (filterContigs min_length max_length records).2.2).2.1 =
      (filterContigs min_length max_length
        (filterContigs min_length max_length records).2.2).1 := by
  simp only [filterContigs_eq]
  rw [filter_self_idem]

/-- A successful run presupposes successful validation. -/
lemma validate_ok_of_run_ok (C : Collaborators) (shared_folder : String)
    (p : Params) (tr : List Effect) (out : Output)
    (h : run_ouango_ContigFilter C shared_folder p = Except.ok (tr, out)) :
    validate p = Except.ok () := by
  cases hval : validate p with
  | error e =>
    rw [run_eq_error C shared_folder p e hval] at h
    simp at h
  | ok u => cases u; rfl

/-- A successful run returns exactly the canonical trace and output. -/
lemma run_ok_inv (C : Collaborators) (shared_folder : String) (p : Params)
    (tr : List Effect) (out : Output)
    (h : run_ouango_ContigFilter C shared_folder p = Except.ok (tr, out)) :
    tr = runTrace C shared_folder p ∧ out = runOutput C shared_folder p := by
  have hv := validate_ok_of_run_ok C shared_folder p tr out h
  rw [run_eq_ok C shared_folder p hv] at h
  injection h with h'
  rw [Prod.mk.injEq] at h'
  exact ⟨h'.1.symm, h'.2.symm⟩

/-- C3: a parameter mapping missing a required key is rejected with the
error naming a missing key, and the run raises it having performed no
collaborator call (no fetch). -/
theorem C3_missing_field_error (C : Collaborators) (shared_folder : String)
    (p : Params) (h : ∃ n ∈ requiredParams, p.lookup n = Option.none) :
    ∃ n ∈ requiredParams, p.lookup n = Option.none ∧
      run_ouango_ContigFilter C shared_folder p =
        Except.error (missingMsg n, []) := by
  obtain ⟨n, hn, hnone, herr⟩ := checkMissing_error_of_exists requiredParams p h
  refine ⟨n, hn, hnone, ?_⟩
  apply run_eq_error
  unfold validate
  rw [herr]

/-- Witness for C3 with `max_length` absent. -/
theorem C3_missing_field_error_witness :
    (∃ n ∈ requiredParams,
      Params.lookup
        [("min_length", PValue.int 10),
         ("assembly_input_ref", PValue.str "79/16/1"),
         ("workspace_name", PValue.str "test_ws")] n = Option.none) ∧
    ∃ n ∈ requiredParams,
      Params.lookup
        [("min_length", PValue.int 10),
         ("assembly_input_ref", PValue.str "79/16/1"),
         ("workspace_name", PValue.str "test_ws")] n = Option.none ∧
      run_ouango_ContigFilter testCollab "/tmp"
        [("min_length", PValue.int 10),
         ("assembly_input_ref", PValue.str "79/16/1"),
         ("workspace_name", PValue.str "test_ws")] =
        Except.error (missingMsg n, []) :=
  ⟨by decide,
   C3_missing_field_error testCollab "/tmp"
     [("min_length", PValue.int 10),
      ("assembly_input_ref", PValue.str "79/16/1"),
      ("workspace_name", PValue.str "test_ws")] (by decide)⟩

/-- C4: with all keys present, a bad assembly reference, a bad
`min_length`, or a bad `max_length` each raise their `ValueError` with no
collaborator call performed; strings are never accepted for the bounds, so
numeric text is rejected, not parsed. -/
theorem C4_bad_type_errors (C : Collaborators) (shared_folder : String)
    (p : Params) (hall : ∀ n ∈ requiredParams, (p.lookup n).isSome) :
    (∀ s : String, nonNegInt (PValue.str s) = false) ∧
    (validAssemblyRef ((p.lookup "assembly_input_ref").getD PValue.none) =
        false →
      run_ouango_ContigFilter C shared_folder p =
        Except.error ("Pass in a valid assembly reference string", [])) ∧
    (validAssemblyRef ((p.lookup "assembly_input_ref").getD PValue.none) =
        true →
      nonNegInt ((p.lookup "min_length").getD PValue.none) = false →
      run_ouango_ContigFilter C shared_folder p =
        Except.error ("Min length must be a non-negative integer", [])) ∧
    (validAssemblyRef ((p.lookup "assembly_input_ref").getD PValue.none) =
        true →
      nonNegInt ((p.lookup "min_length").getD PValue.none) = true →
      nonNegInt ((p.lookup "max_length").getD PValue.none) = false →
      run_ouango_ContigFilter C shared_folder p =
        Except.error ("Max length must be a non-negative integer", [])) := by
  have hok := checkMissing_ok_of_forall requiredParams p hall
  refine ⟨fun s => rfl, ?_, ?_, ?_⟩
  · intro hbad
    apply run_eq_error
    unfold validate
    rw [hok]
    simp [hbad]
  · intro href hbad
    apply run_eq_error
    unfold validate
    rw [hok]
    simp [href, hbad]
  · intro href hmin hbad
    apply run_eq_error
    unfold validate
    rw [hok]
    simp [href, hmin, hbad]

/-- Witness for C4 with `min_length` supplied as the text string "100". -/
theorem C4_bad_type_errors_witness :
    (∀ n ∈ requiredParams,
      (Params.lookup
        [("min_length", PValue.str "100"),
         ("max_length", PValue.int 1000000),
         ("assembly_input_ref", PValue.str "79/16/1"),
         ("workspace_name", PValue.str "test_ws")] n).isSome) ∧
    nonNegInt (PValue.str "100") = false ∧
    run_ouango_ContigFilter testCollab "/tmp"
      [("min_length", PValue.str "100"),
       ("max_length", PValue.int 1000000),
       ("assembly_input_ref", PValue.str "79/16/1"),
       ("workspace_name", PValue.str "test_ws")] =
      Except.error ("Min length must be a non-negative integer", []) :=
  ⟨by decide,
   (C4_bad_type_errors testCollab "/tmp"
     [("min_length", PValue.str "100"),
      ("max_length", PValue.int 1000000),
      ("assembly_input_ref", PValue.str "79/16/1"),
      ("workspace_name", PValue.str "test_ws")] (by decide)).1 "100",
   (C4_bad_type_errors testCollab "/tmp"
     [("min_length", PValue.str "100"),
      ("max_length", PValue.int 1000000),
      ("assembly_input_ref", PValue.str "79/16/1"),
      ("workspace_name", PValue.str "test_ws")] (by decide)).2.2.1
     (by decide) (by decide)⟩

/-- C5: at the test input the pipeline succeeds but its collaborator trace
holds one fetch, two assembly saves, and two report creations — the
persist and the report are each performed twice, not once. -/
theorem C5_duplicate_persist_and_report :
    run_ouango_ContigFilter testCollab "/tmp" testParams =
      Except.ok (runTrace testCollab "/tmp" testParams,
        runOutput testCollab "/tmp" testParams) ∧
    (runTrace testCollab "/tmp" testParams).countP isFetchEffect = 1 ∧
    (runTrace testCollab "/tmp" testParams).countP isSaveEffect = 2 ∧
    (runTrace testCollab "/tmp" testParams).countP isReportEffect = 2 :=
  ⟨rfl, by decide, by decide, by decide⟩

/-- C7: every successful run returns the report name and reference of the
(second) report, the saved assembly reference, the total as
`n_initial_contigs`, the retained count as `n_contigs_remaining`, their
difference as `n_contigs_removed`; the retained count equals the length of
the retained records and never exceeds the total. -/
theorem C7_result_shape (C : Collaborators) (shared_folder : String)
    (p : Params) (tr : List Effect) (out : Output)
    (h : run_ouango_ContigFilter C shared_folder p = Except.ok (tr, out)) :
    out.report_name = (runReportInfo C shared_folder p).2 ∧
    out.report_ref = (runReportInfo C shared_folder p).1 ∧
    out.assembly_output = runNewRef C shared_folder p ∧
    out.n_initial_contigs = (runGood C p).1 ∧
    out.n_contigs_remaining = (runGood C p).2.1 ∧
    out.n_contigs_removed =
      ((runGood C p).1 : Int) - ((runGood C p).2.1 : Int) ∧
    (runGood C p).2.1 = (runGood C p).2.2.length ∧
    (runGood C p).2.1 ≤ (runGood C p).1 := by
  obtain ⟨htr, hout⟩ := run_ok_inv C shared_folder p tr out h
  subst hout
  refine ⟨rfl, rfl, rfl, rfl, rfl, rfl, ?_, ?_⟩
  · unfold runGood
    rw [filterContigs_eq]
  · unfold runGood
    rw [filterContigs_eq]
    exact List.length_filter_le _ _

/-- Witness for C7 at the test fixture. -/
theorem C7_result_shape_witness :
    run_ouango_ContigFilter testCollab "/tmp" testParams =
      Except.ok (runTrace testCollab "/tmp" testParams,
        runOutput testCollab "/tmp" testParams) ∧
    ((runOutput testCollab "/tmp" testParams).report_name =
      (runReportInfo testCollab "/tmp" testParams).2 ∧
    (runOutput testCollab "/tmp" testParams).report_ref =
      (runReportInfo testCollab "/tmp" testParams).1 ∧
    (runOutput testCollab "/tmp" testParams).assembly_output =
      runNewRef testCollab "/tmp" testParams ∧
    (runOutput testCollab "/tmp" testParams).n_initial_contigs =
      (runGood testCollab testParams).1 ∧
    (runOutput testCollab "/tmp" testParams).n_contigs_remaining =
      (runGood testCollab testParams).2.1 ∧
    (runOutput testCollab "/tmp" testParams).n_contigs_removed =
      ((runGood testCollab testParams).1 : Int) -
        ((runGood testCollab testParams).2.1 : Int) ∧
    (runGood testCollab testParams).2.1 =
      (runGood testCollab testParams).2.2.length ∧
    (runGood testCollab testParams).2.1 ≤
      (runGood testCollab testParams).1) :=
  ⟨rfl, C7_result_shape testCollab "/tmp" testParams _ _ rfl⟩

/-- C8 counterexample: at the test input the pipeline creates two reports;
the message of the second — the report whose reference the caller
receives — is "Filtered Assembly to 2 contigs out of 3", which differs
from the claimed "Filtered assembly to 2 contigs out of 3". -/
theorem C8_message_counterexample :
    run_ouango_ContigFilter testCollab "/tmp" testParams =
      Except.ok (runTrace testCollab "/tmp" testParams,
        runOutput testCollab "/tmp" testParams) ∧
    (runOutput testCollab "/tmp" testParams).n_contigs_remaining = 2 ∧
    (runOutput testCollab "/tmp" testParams).n_initial_contigs = 3 ∧
    reportMessages (runTrace testCollab "/tmp" testParams) =
      ["Filtered assembly to 2 contigs out of 3",
       "Filtered Assembly to 2 contigs out of 3"] ∧
    "Filtered Assembly to 2 contigs out of 3" ≠
      "Filtered assembly to 2 contigs out of 3" :=
  ⟨rfl, rfl, rfl, rfl, by decide⟩

/-- C8 (amended): every successful run creates two reports: the first
carries exactly "Filtered assembly to {retained} contigs out of {total}",
the second — whose reference and name reach the caller — carries
"Filtered Assembly to {retained} contigs out of {total}", identical but
for the capitalization of "Assembly". -/
theorem C8_report_messages (C : Collaborators) (shared_folder : String)
    (p : Params) (tr : List Effect) (out : Output)
    (h : run_ouango_ContigFilter C shared_folder p = Except.ok (tr, out)) :
    reportMessages tr =
      [msgLower out.n_contigs_remaining out.n_initial_contigs,
       msgUpper out.n_contigs_remaining out.n_initial_contigs] := by
  obtain ⟨htr, hout⟩ := run_ok_inv C shared_folder p tr out h
  subst htr
  subst hout
  rfl

/-- Witness for the amended C8 at the test fixture. -/
theorem C8_report_messages_witness :
    run_ouango_ContigFilter testCollab "/tmp" testParams =
      Except.ok (runTrace testCollab "/tmp" testParams,
        runOutput testCollab "/tmp" testParams) ∧
    reportMessages (runTrace testCollab "/tmp" testParams) =
      [msgLower (runOutput testCollab "/tmp" testParams).n_contigs_remaining
         (runOutput testCollab "/tmp" testParams).n_initial_contigs,
       msgUpper (runOutput testCollab "/tmp" testParams).n_contigs_remaining
         (runOutput testCollab "/tmp" testParams).n_initial_contigs] :=
  ⟨rfl, C8_report_messages testCollab "/tmp" testParams _ _ rfl⟩

/-- C9: booleans pass the bound validation (Python treats `bool` as a
subclass of `int`): `True` and `False` are accepted as `min_length` or
`max_length` and act as the numeric bounds 1 and 0. -/
theorem C9_bool_bounds_accepted :
    nonNegInt (PValue.bool true) = true ∧
    nonNegInt (PValue.bool false) = true ∧
    pyIntVal (PValue.bool true) = 1 ∧
    pyIntVal (PValue.bool false) = 0 ∧
    validate
      [("min_length", PValue.bool true), ("max_length", PValue.int 1000000),
       ("assembly_input_ref", PValue.str "79/16/1"),
       ("workspace_name", PValue.str "test_ws")] = Except.ok () ∧
    (filterContigs (pyIntVal (PValue.bool true)) 1000000
        [{ id := "e", seq := "" }, { id := "a", seq := "A" },
         { id := "b", seq := "AC" }]).2.1 = 2 ∧
    (filterContigs (pyIntVal (PValue.bool false)) (pyIntVal (PValue.bool true))
        [{ id := "e", seq := "" }, { id := "a", seq := "A" },
         { id := "b", seq := "AC" }]).2.1 = 2 :=
  ⟨rfl, rfl, rfl, rfl, rfl, by decide, by decide⟩

/-- C10: the workspace value is checked only for presence: any value —
empty string, integer, boolean, `None` — passes validation and the
pipeline proceeds to completion, while the assembly reference must be a
non-empty string. -/
theorem C10_workspace_presence_only (C : Collaborators)
    (shared_folder : String) (v : PValue) :
    validate
      [("min_length", PValue.int 10), ("max_length", PValue.int 100000),
       ("assembly_input_ref", PValue.str "79/16/1"),
       ("workspace_name", v)] = Except.ok () ∧
    run_ouango_ContigFilter C shared_folder
      [("min_length", PValue.int 10), ("max_length", PValue.int 100000),
       ("assembly_input_ref", PValue.str "79/16/1"),
       ("workspace_name", v)] =
      Except.ok
        (runTrace C shared_folder
          [("min_length", PValue.int 10), ("max_length", PValue.int 100000),
           ("assembly_input_ref", PValue.str "79/16/1"),
           ("workspace_name", v)],
         runOutput C shared_folder
          [("min_length", PValue.int 10), ("max_length", PValue.int 100000),
           ("assembly_input_ref", PValue.str "79/16/1"),
           ("workspace_name", v)]) ∧
    validate
      [("min_length", PValue.int 10), ("max_length", PValue.int 100000),
       ("assembly_input_ref", PValue.str ""),
       ("workspace_name", PValue.str "test_ws")] =
      Except.error "Pass in a valid assembly reference string" := by
  refine ⟨rfl, ?_, rfl⟩
  exact run_eq_ok C shared_folder _ rfl

end ContigFilters
